import Mathlib

/-!
Verification of the assignment-synchronization core of the logstore broker.

Two components are modelled:

* `LogStoreEventListener` — the assignment event bridge.  Its TypeScript
  source is present in the repository
  (`packages/broker/src/plugins/logStore/LogStoreEventListener.ts`, shipped
  concatenated into `bin/logstore-broker.ts`); the definitions below are a
  direct shallow embedding of that class.

* `LogStoreConfig` — the assignment synchronizer.  Only its unit test is
  present in the repository, not its implementation, so its reconciliation
  algorithm and lifecycle are modelled from the specification
  (sections 3–5 of the design document); every such definition carries a
  doc comment starting with `Modelled from the spec:`.

Asynchronous effects are embedded by making each handler a pure function
from its environment (lookup results, fetched lists) to an explicit record
of its observable effects (callback invocations, log counts, client calls).
-/

namespace LogStore

/-- A stream-partition responsibility key: `(streamId, partitionIndex)`.
Corresponds to the spec's `UnitKey` and the code's `StreamPartID`. -/
structure UnitKey where
  streamId : String
  partitionIdx : Nat
deriving DecidableEq, Repr

/-- Resolved descriptor of a stream: its id and its partition count.
Corresponds to the spec's `UnitMetadata` / the code's `Stream` with
`getMetadata().partitions`. -/
structure UnitMetadata where
  streamId : String
  partitionCount : Nat
deriving DecidableEq, Repr

/-- Modelled from the spec: fleet-sharding parameters `(shardCount,
shardIndex)` together with the (deliberately unspecified) stable hash over
unit keys; a key is in scope iff `hash k % shardCount == shardIndex`. -/
structure ShardingParams where
  shardCount : Nat
  shardIndex : Nat
  hashKey : UnitKey → Nat

/-- Modelled from the spec: the pure sharding filter over unit keys. -/
def inShard (sh : ShardingParams) (k : UnitKey) : Bool :=
  sh.hashKey k % sh.shardCount == sh.shardIndex

/-- The single-node sharding configuration used by every observed test:
`shardCount = 1`, `shardIndex = 0` (every key is in scope). -/
def singleShard : ShardingParams :=
  { shardCount := 1, shardIndex := 0, hashKey := fun _ => 0 }

/-- Expansion of a unit's metadata into its keys, one per partition index
from `0` to `partitionCount - 1`, in ascending order. -/
def expandUnit (m : UnitMetadata) : List UnitKey :=
  (List.range m.partitionCount).map (fun i => ⟨m.streamId, i⟩)

/-- Sharding-filtered expansion of one unit. -/
def expandFiltered (sh : ShardingParams) (m : UnitMetadata) : List UnitKey :=
  (expandUnit m).filter (inShard sh)

/-- Lexicographic strict order on character lists, by character code. -/
def charsLt : List Char → List Char → Bool
  | [], [] => false
  | [], _ :: _ => true
  | _ :: _, [] => false
  | a :: as, b :: bs =>
    if a.toNat < b.toNat then true
    else if b.toNat < a.toNat then false
    else charsLt as bs

/-- Total order on unit keys: ascending by `(streamId, partitionIndex)`. -/
def keyLe (a b : UnitKey) : Bool :=
  charsLt a.streamId.data b.streamId.data ||
    (a.streamId == b.streamId && a.partitionIdx ≤ b.partitionIdx)

/-- Ordered insertion used by `sortKeys`. -/
def insertSorted (k : UnitKey) : List UnitKey → List UnitKey
  | [] => [k]
  | x :: xs => if keyLe k x then k :: x :: xs else x :: insertSorted k xs

/-- Insertion sort by `keyLe` (deterministic ascending iteration order). -/
def sortKeys (l : List UnitKey) : List UnitKey :=
  l.foldr insertSorted []

/-- Keeps the last occurrence of each key, dropping duplicates. -/
def dedupKeys : List UnitKey → List UnitKey
  | [] => []
  | x :: xs =>
    if (dedupKeys xs).contains x then dedupKeys xs else x :: dedupKeys xs

/-- Modelled from the spec: the sharding-filtered expansion of a fetched
unit list into its set of keys, as a sorted duplicate-free list. -/
def expandAll (sh : ShardingParams) (units : List UnitMetadata) : List UnitKey :=
  sortKeys (dedupKeys ((units.flatMap expandUnit).filter (inShard sh)))

/-- Outcome of one reconciliation step: the new local set and the
`onRemoved` / `onAdded` callback invocations, in invocation order. -/
structure ReconcileResult where
  newUnits : List UnitKey
  removed : List UnitKey
  added : List UnitKey
deriving DecidableEq, Repr

/-- Modelled from the spec: the poll-path reconciliation.  Expand the
fetched list, filter by sharding, compute `toAdd = expanded − current` and
`toRemove = current − expanded`, apply removals then additions, invoking
each callback once per key in ascending order; the new state is exactly
the filtered expansion. -/
def pollApply (sh : ShardingParams) (current : List UnitKey)
    (units : List UnitMetadata) : ReconcileResult :=
  let expanded := expandAll sh units
  { newUnits := expanded
    removed := current.filter (fun k => !expanded.contains k)
    added := expanded.filter (fun k => !current.contains k) }

/-- The two assignment change types (`'added' | 'removed'`). -/
inductive ChangeType where
  | added
  | removed
deriving DecidableEq, Repr

/-- Modelled from the spec: the event-path reconciliation.  For `added`,
add exactly the expanded keys not already present (callback once per such
key, none for keys already present); for `removed`, remove exactly the
expanded keys currently present (callback once per such key, none
otherwise). -/
def eventApply (sh : ShardingParams) (current : List UnitKey)
    (m : UnitMetadata) : ChangeType → ReconcileResult
  | .added =>
    let toAdd := (expandFiltered sh m).filter (fun k => !current.contains k)
    { newUnits := current ++ toAdd, removed := [], added := toAdd }
  | .removed =>
    let expanded := expandFiltered sh m
    { newUnits := current.filter (fun k => !expanded.contains k)
      removed := expanded.filter (fun k => current.contains k)
      added := [] }

/-! ### The event bridge: `LogStoreEventListener`

Shallow embedding of the class in
`packages/broker/src/plugins/logStore/LogStoreEventListener.ts`. -/

/-- A resolved stream, as returned by `streamrClient.getStream`:
its id and the partition count from `getMetadata()`. -/
structure Stream where
  id : String
  partitions : Nat
deriving DecidableEq, Repr

/-- A raw registry event (`StorageNodeAssignmentEvent`): the stream, the
target node address, and the block number (watermark). -/
structure StorageNodeAssignmentEvent where
  streamId : String
  nodeAddress : String
  blockNumber : Nat
deriving DecidableEq, Repr

/-- Observable effects of one `handleEvent` invocation: the `onEvent`
callback invocations (argument tuples in order), the number of
`getStream` lookups, the info/warn log counts, and the exception (if any)
that escaped the handler. -/
structure HandleEventResult where
  onEventCalls : List (Stream × ChangeType × Nat)
  getStreamCalls : Nat
  infoLogs : Nat
  warnLogs : Nat
  thrown : Option String
deriving DecidableEq, Repr

namespace LogStoreEventListener

/-- Embedding of `LogStoreEventListener.handleEvent`: if the event's `nodeAddress`
differs from this node's `clusterId`, return immediately (no log, no
lookup, no callback); otherwise log at info level and run the `try`
block, catching any exception and logging it at warn level.  `getStream`
and `onEvent` are the environment: the client's lookup and the owner's
callback, each of which may fail. -/
def handleEvent (clusterId : String)
    (getStream : String → Except String Stream)
    (onEvent : Stream → ChangeType → Nat → Except String Unit)
    (event : StorageNodeAssignmentEvent) (type : ChangeType) :
    HandleEventResult :=
  if event.nodeAddress ≠ clusterId then
    { onEventCalls := [], getStreamCalls := 0, infoLogs := 0, warnLogs := 0
      thrown := none }
  else
    match getStream event.streamId with
    | .error _ =>
      { onEventCalls := [], getStreamCalls := 1, infoLogs := 1, warnLogs := 1
        thrown := none }
    | .ok stream =>
      match onEvent stream type event.blockNumber with
      | .ok _ =>
        { onEventCalls := [(stream, type, event.blockNumber)]
          getStreamCalls := 1, infoLogs := 1, warnLogs := 0, thrown := none }
      | .error _ =>
        { onEventCalls := [(stream, type, event.blockNumber)]
          getStreamCalls := 1, infoLogs := 1, warnLogs := 1, thrown := none }

end LogStoreEventListener

/-- The streamr client's listener registry as the listener sees it: the
set of event names with a registered handler (the stub client's `Map`
keys), plus counts of `on`/`off` calls made against the client. -/
structure ClientState where
  registered : List String
  onCalls : Nat
  offCalls : Nat
deriving DecidableEq, Repr

/-- A client on which no `on`/`off` call has been made. -/
def ClientState.initial : ClientState :=
  { registered := [], onCalls := 0, offCalls := 0 }

/-- Effect of `client.on(name, handler)`: registers the handler (stub semantics:
`Map.set`) and counts one `on` call. -/
def ClientState.onEventName (c : ClientState) (name : String) : ClientState :=
  { c with
    registered := if c.registered.contains name then c.registered
      else c.registered ++ [name]
    onCalls := c.onCalls + 1 }

/-- Effect of `client.off(name, handler)`: unregisters the handler (stub semantics:
`Map.delete`) and counts one `off` call. -/
def ClientState.offEventName (c : ClientState) (name : String) : ClientState :=
  { c with
    registered := c.registered.filter (fun n => n ≠ name)
    offCalls := c.offCalls + 1 }

namespace LogStoreEventListener

/-- Embedding of `LogStoreEventListener.start()`: registers exactly one handler each
for `'addToStorageNode'` and `'removeFromStorageNode'`. -/
def start (c : ClientState) : ClientState :=
  (c.onEventName "addToStorageNode").onEventName "removeFromStorageNode"

/-- Embedding of `LogStoreEventListener.destroy()`: unconditionally calls `off` for
`'addToStorageNode'` and `'removeFromStorageNode'` — the source has no
guard on whether `start()` ever ran. -/
def destroy (c : ClientState) : ClientState :=
  (c.offEventName "addToStorageNode").offEventName "removeFromStorageNode"

end LogStoreEventListener

/-! ### The synchronizer lifecycle: `LogStoreConfig`

Modelled from the spec: the implementation of `LogStoreConfig` is not in
the repository (only its unit test is), so the lifecycle below follows
the design document's sections 4.2 and 5: the local set is created empty,
`start()` registers the bridge's two listeners and begins polling,
`destroy()` cancels the timer, unregisters, and awaits in-flight work, so
that once it has resolved no queued tick or in-flight lookup mutates
state or fires callbacks ever again. -/

/-- Accumulated observable state of one `LogStoreConfig` instance:
lifecycle flags, the authoritative local set `currentUnits`, and the
effect counters the tests observe (fetch calls, listener registrations,
the full `onAdded`/`onRemoved` invocation sequences, warn logs). -/
structure SyncState where
  started : Bool
  destroyed : Bool
  currentUnits : List UnitKey
  fetchCalls : Nat
  listenerRegistrations : Nat
  addedCallbacks : List UnitKey
  removedCallbacks : List UnitKey
  warnLogs : Nat
deriving DecidableEq, Repr

/-- The state at construction: empty set, nothing started, no effects. -/
def SyncState.initial : SyncState :=
  { started := false, destroyed := false, currentUnits := []
    fetchCalls := 0, listenerRegistrations := 0
    addedCallbacks := [], removedCallbacks := [], warnLogs := 0 }

/-- Embedding of `getStreamParts()` / `getAssignedUnits()`: synchronous snapshot of
the local set. -/
def SyncState.getAssignedUnits (s : SyncState) : List UnitKey :=
  s.currentUnits

/-- One schedulable unit of work delivered to the synchronizer, with the
environment's response as payload: a `start`/`destroy` call, a poll-timer
tick carrying the fetch outcome, a bridge event carrying the metadata
lookup's outcome, or mere passage of time. -/
inductive SyncOp where
  | startOp
  | destroyOp
  | tick (fetched : Except String (List UnitMetadata))
  | bridgeEvent (event : StorageNodeAssignmentEvent)
      (lookup : Except String UnitMetadata) (type : ChangeType)
  | waitTime (ms : Nat)

/-- Modelled from the spec: one serialized step of the synchronizer.
All mutation happens inside the single critical section, so a run is a
fold of steps.  A tick only has effect while started and not destroyed
(`destroy()` cancels the pending timer); a bridge event only has effect
while started and not destroyed and addressed to this node (the bridge's
handlers are registered by `start()` and unregistered by `destroy()`,
which also awaits in-flight lookups).  Fetch/lookup failures log a
warning and leave the set unchanged; no step throws. -/
def stepSync (sh : ShardingParams) (clusterId : String) (s : SyncState) :
    SyncOp → SyncState
  | .startOp =>
    if s.started || s.destroyed then s
    else { s with started := true
                  listenerRegistrations := s.listenerRegistrations + 2 }
  | .destroyOp => { s with destroyed := true }
  | .tick fetched =>
    if s.started && !s.destroyed then
      match fetched with
      | .error _ =>
        { s with fetchCalls := s.fetchCalls + 1, warnLogs := s.warnLogs + 1 }
      | .ok units =>
        let r := pollApply sh s.currentUnits units
        { s with fetchCalls := s.fetchCalls + 1
                 currentUnits := r.newUnits
                 removedCallbacks := s.removedCallbacks ++ r.removed
                 addedCallbacks := s.addedCallbacks ++ r.added }
    else s
  | .bridgeEvent event lookup type =>
    if s.started && !s.destroyed && (event.nodeAddress == clusterId) then
      match lookup with
      | .error _ => { s with warnLogs := s.warnLogs + 1 }
      | .ok m =>
        let r := eventApply sh s.currentUnits m type
        { s with currentUnits := r.newUnits
                 removedCallbacks := s.removedCallbacks ++ r.removed
                 addedCallbacks := s.addedCallbacks ++ r.added }
    else s
  | .waitTime _ => s

/-- A run of the synchronizer: fold the steps over an operation list. -/
def runSync (sh : ShardingParams) (clusterId : String) (s : SyncState)
    (ops : List SyncOp) : SyncState :=
  ops.foldl (stepSync sh clusterId) s

/-- The fields of a synchronizer state that the spec's frozen/empty
claims quantify over: the local set, the fetch-call and
listener-registration counts, and both callback sequences. -/
def SyncState.observables (s : SyncState) :
    List UnitKey × Nat × Nat × List UnitKey × List UnitKey :=
  (s.currentUnits, s.fetchCalls, s.listenerRegistrations,
    s.addedCallbacks, s.removedCallbacks)

/-! ### Helper lemmas -/

theorem insertSorted_perm (k : UnitKey) (l : List UnitKey) :
    List.Perm (insertSorted k l) (k :: l) := by
  induction l with
  | nil => exact List.Perm.refl _
  | cons x xs ih =>
    simp only [insertSorted]
    split
    · exact List.Perm.refl _
    · exact (ih.cons x).trans (List.Perm.swap k x xs)

theorem sortKeys_perm (l : List UnitKey) : List.Perm (sortKeys l) l := by
  induction l with
  | nil => exact List.Perm.refl _
  | cons x xs ih =>
    exact (insertSorted_perm x (sortKeys xs)).trans (ih.cons x)

theorem dedupKeys_nodup (l : List UnitKey) : (dedupKeys l).Nodup := by
  induction l with
  | nil => exact List.nodup_nil
  | cons x xs ih =>
    simp only [dedupKeys]
    split
    · exact ih
    · next h => exact List.nodup_cons.mpr ⟨by simpa [List.contains] using h, ih⟩

theorem expandAll_nodup (sh : ShardingParams) (units : List UnitMetadata) :
    (expandAll sh units).Nodup :=
  (sortKeys_perm _).symm.nodup (dedupKeys_nodup _)

theorem filter_not_contains_self (l : List UnitKey) :
    l.filter (fun k => !l.contains k) = [] := by
  rw [List.filter_eq_nil_iff]
  intro a ha
  simp [List.contains, ha]

theorem stepSync_destroyed (sh : ShardingParams) (cid : String)
    (s : SyncState) (h : s.destroyed = true) (op : SyncOp) :
    stepSync sh cid s op = s := by
  obtain ⟨st, d, cu, fc, lr, ac, rc, wl⟩ := s
  simp only at h
  subst h
  cases op <;> simp [stepSync]

theorem runSync_destroyed (sh : ShardingParams) (cid : String)
    (s : SyncState) (h : s.destroyed = true) (ops : List SyncOp) :
    runSync sh cid s ops = s := by
  induction ops with
  | nil => rfl
  | cons op rest ih =>
    show List.foldl (stepSync sh cid) (stepSync sh cid s op) rest = s
    rw [stepSync_destroyed sh cid s h op]
    exact ih

theorem stepSync_not_started (sh : ShardingParams) (cid : String)
    (s : SyncState) (h : s.started = false) (op : SyncOp)
    (hop : op ≠ SyncOp.startOp) :
    (stepSync sh cid s op).observables = s.observables
    ∧ (stepSync sh cid s op).started = false := by
  cases op with
  | startOp => exact absurd rfl hop
  | destroyOp => exact ⟨rfl, h⟩
  | tick f => simp [stepSync, h]
  | bridgeEvent e l t => simp [stepSync, h]
  | waitTime ms => exact ⟨rfl, h⟩

theorem runSync_not_started (sh : ShardingParams) (cid : String)
    (s : SyncState) (h : s.started = false) (ops : List SyncOp)
    (hops : SyncOp.startOp ∉ ops) :
    (runSync sh cid s ops).observables = s.observables := by
  induction ops generalizing s with
  | nil => rfl
  | cons op rest ih =>
    have hop : op ≠ SyncOp.startOp := fun he => hops (he ▸ List.mem_cons_self op rest)
    have h1 := stepSync_not_started sh cid s h op hop
    have h2 := ih (stepSync sh cid s op) h1.2
      (fun hm => hops (List.mem_cons_of_mem op hm))
    exact h2.trans h1.1

theorem pollFold_eq_expandAll_last (sh : ShardingParams) :
    ∀ (polls : List (List UnitMetadata)) (hne : polls ≠ [])
      (current : List UnitKey),
    polls.foldl (fun st us => (pollApply sh st us).newUnits) current
      = expandAll sh (polls.getLast hne) := by
  intro polls
  induction polls with
  | nil => intro hne; exact absurd rfl hne
  | cons us rest ih =>
    intro hne current
    cases rest with
    | nil => simp [pollApply]
    | cons b bs =>
      rw [List.foldl_cons, ih (List.cons_ne_nil b bs) _]
      congr 1

/-! ### Claim theorems -/

/-- C3: starting from the empty set, a poll returning `stream-1` with 2
partitions and `stream-2` with 4 partitions fires exactly 6 `onAdded`
callbacks, one per `(streamId, partitionIndex)` key in ascending order
(removals — here none — are applied before additions), fires 0
`onRemoved` callbacks, and leaves the local set with exactly 6 keys. -/
theorem poll_scenario_two_streams :
    (runSync singleShard "0xaaaaaaaaaaaaaaaaaaaaaaaaaaaaaaaaaaaaaaaa"
        SyncState.initial
        [SyncOp.startOp,
         SyncOp.tick (Except.ok [⟨"stream-1", 2⟩, ⟨"stream-2", 4⟩])]).addedCallbacks
      = [⟨"stream-1", 0⟩, ⟨"stream-1", 1⟩, ⟨"stream-2", 0⟩, ⟨"stream-2", 1⟩,
         ⟨"stream-2", 2⟩, ⟨"stream-2", 3⟩]
    ∧ (runSync singleShard "0xaaaaaaaaaaaaaaaaaaaaaaaaaaaaaaaaaaaaaaaa"
        SyncState.initial
        [SyncOp.startOp,
         SyncOp.tick (Except.ok [⟨"stream-1", 2⟩, ⟨"stream-2", 4⟩])]).removedCallbacks
      = []
    ∧ (runSync singleShard "0xaaaaaaaaaaaaaaaaaaaaaaaaaaaaaaaaaaaaaaaa"
        SyncState.initial
        [SyncOp.startOp,
         SyncOp.tick (Except.ok [⟨"stream-1", 2⟩, ⟨"stream-2", 4⟩])]).currentUnits.length
      = 6 := by
  decide

/-- C5: a raw registry event whose target node address differs from this
node's configured address is discarded silently — no lookup, no log, no
callback; an event addressed to this node whose metadata lookup succeeds
causes the owner's callback to be invoked exactly once, with the resolved
stream, the event's change type, and its block number. -/
theorem handleEvent_filter_and_forward (clusterId : String)
    (getStream : String → Except String Stream)
    (onEvent : Stream → ChangeType → Nat → Except String Unit)
    (event : StorageNodeAssignmentEvent) (type : ChangeType) :
    (event.nodeAddress ≠ clusterId →
      LogStoreEventListener.handleEvent clusterId getStream onEvent event type
        = { onEventCalls := [], getStreamCalls := 0, infoLogs := 0
            warnLogs := 0, thrown := none })
    ∧ (∀ stream, event.nodeAddress = clusterId →
        getStream event.streamId = Except.ok stream →
        (LogStoreEventListener.handleEvent clusterId getStream onEvent event
            type).onEventCalls
          = [(stream, type, event.blockNumber)]) := by
  constructor
  · intro h
    simp [LogStoreEventListener.handleEvent, h]
  · intro stream h hok
    cases honev : onEvent stream type event.blockNumber with
    | ok u => simp [LogStoreEventListener.handleEvent, h, hok, honev]
    | error e => simp [LogStoreEventListener.handleEvent, h, hok, honev]

/-- Witness for C5: the test's scenario — an event addressed to another
node produces no effect at all, and an event addressed to this node with
a successful lookup invokes the callback once with
`(stream, added, 1234)`. -/
theorem handleEvent_filter_and_forward_witness :
    (LogStoreEventListener.handleEvent "0xaaaa"
        (fun _ => Except.ok ⟨"streamId", 3⟩) (fun _ _ _ => Except.ok ())
        ⟨"streamId", "0xbbbb", 1234⟩ ChangeType.added
      = { onEventCalls := [], getStreamCalls := 0, infoLogs := 0
          warnLogs := 0, thrown := none })
    ∧ (LogStoreEventListener.handleEvent "0xaaaa"
        (fun _ => Except.ok ⟨"streamId", 3⟩) (fun _ _ _ => Except.ok ())
        ⟨"streamId", "0xaaaa", 1234⟩ ChangeType.added).onEventCalls
      = [(⟨"streamId", 3⟩, ChangeType.added, 1234)] :=
  ⟨(handleEvent_filter_and_forward "0xaaaa" _ _ ⟨"streamId", "0xbbbb", 1234⟩
      ChangeType.added).1 (by decide),
   (handleEvent_filter_and_forward "0xaaaa" _ _ ⟨"streamId", "0xaaaa", 1234⟩
      ChangeType.added).2 ⟨"streamId", 3⟩ rfl rfl⟩

/-- C7: for an accepted event (addressed to this node) whose metadata
lookup fails, the bridge logs one warning and drops the event: the
owner's callback is not invoked, nothing escapes the handler, and the
lookup is performed exactly once (never retried). -/
theorem handleEvent_lookup_failure (clusterId : String)
    (getStream : String → Except String Stream)
    (onEvent : Stream → ChangeType → Nat → Except String Unit)
    (event : StorageNodeAssignmentEvent) (type : ChangeType) (err : String)
    (haddr : event.nodeAddress = clusterId)
    (hfail : getStream event.streamId = Except.error err) :
    LogStoreEventListener.handleEvent clusterId getStream onEvent event type
      = { onEventCalls := [], getStreamCalls := 1, infoLogs := 1
          warnLogs := 1, thrown := none } := by
  simp [LogStoreEventListener.handleEvent, haddr, hfail]

/-- Witness for C7 at concrete inputs: a failing lookup on an event
addressed to this node. -/
theorem handleEvent_lookup_failure_witness :
    LogStoreEventListener.handleEvent "0xaaaa"
        (fun _ => Except.error "results not available")
        (fun _ _ _ => Except.ok ()) ⟨"streamId", "0xaaaa", 1234⟩
        ChangeType.added
      = { onEventCalls := [], getStreamCalls := 1, infoLogs := 1
          warnLogs := 1, thrown := none } :=
  handleEvent_lookup_failure "0xaaaa" _ _ ⟨"streamId", "0xaaaa", 1234⟩
    ChangeType.added "results not available" rfl rfl

/-- C9 counterexample: the claim says `destroy()` without a prior
`start()` performs zero `off` calls on the client; in the source,
`destroy()` unconditionally calls `off` for both event types, so the
`off`-call count is 2, not 0 — exactly what the repository's own unit
test asserts. -/
theorem destroy_without_start_counterexample :
    ¬ (LogStoreEventListener.destroy ClientState.initial).offCalls = 0 := by
  decide

/-- C9 amended: calling `destroy()` when `start()` was never called is
safe and leaves the client's registered-listener set untouched (nothing
was registered, so nothing is removed), but it is not free of client
calls: it performs exactly two `off` calls, one per event type. -/
theorem destroy_without_start_amended :
    (LogStoreEventListener.destroy ClientState.initial).offCalls = 2
    ∧ (LogStoreEventListener.destroy ClientState.initial).registered = []
    ∧ (LogStoreEventListener.destroy ClientState.initial).onCalls = 0 := by
  decide

/-- C10: the handler's try/catch wraps both the lookup and the owner's
callback: a synchronous exception from the callback itself is caught and
logged at warning level (the callback having been invoked exactly once),
and no input whatsoever makes an exception escape `handleEvent`, so the
registry subscription stays intact. -/
theorem handleEvent_callback_exception_caught (clusterId : String)
    (getStream : String → Except String Stream)
    (onEvent : Stream → ChangeType → Nat → Except String Unit)
    (event : StorageNodeAssignmentEvent) (type : ChangeType)
    (stream : Stream) (err : String)
    (haddr : event.nodeAddress = clusterId)
    (hok : getStream event.streamId = Except.ok stream)
    (hthrow : onEvent stream type event.blockNumber = Except.error err) :
    LogStoreEventListener.handleEvent clusterId getStream onEvent event type
      = { onEventCalls := [(stream, type, event.blockNumber)]
          getStreamCalls := 1, infoLogs := 1, warnLogs := 1, thrown := none }
    ∧ ∀ (cid : String) (gs : String → Except String Stream)
        (oe : Stream → ChangeType → Nat → Except String Unit)
        (ev : StorageNodeAssignmentEvent) (t : ChangeType),
        (LogStoreEventListener.handleEvent cid gs oe ev t).thrown = none := by
  constructor
  · simp [LogStoreEventListener.handleEvent, haddr, hok, hthrow]
  · intro cid gs oe ev t
    by_cases h : ev.nodeAddress = cid
    · cases hgs : gs ev.streamId with
      | error e => simp [LogStoreEventListener.handleEvent, h, hgs]
      | ok s =>
        cases hoe : oe s t ev.blockNumber with
        | ok u => simp [LogStoreEventListener.handleEvent, h, hgs, hoe]
        | error e => simp [LogStoreEventListener.handleEvent, h, hgs, hoe]
    · simp [LogStoreEventListener.handleEvent, h]

/-- Witness for C10 at concrete inputs: a callback that throws on an
accepted event with a successful lookup. -/
theorem handleEvent_callback_exception_caught_witness :
    LogStoreEventListener.handleEvent "0xaaaa"
        (fun _ => Except.ok ⟨"streamId", 3⟩)
        (fun _ _ _ => Except.error "consumer failed")
        ⟨"streamId", "0xaaaa", 1234⟩ ChangeType.removed
      = { onEventCalls := [(⟨"streamId", 3⟩, ChangeType.removed, 1234)]
          getStreamCalls := 1, infoLogs := 1, warnLogs := 1, thrown := none } :=
  (handleEvent_callback_exception_caught "0xaaaa" _ _
    ⟨"streamId", "0xaaaa", 1234⟩ ChangeType.removed ⟨"streamId", 3⟩
    "consumer failed" rfl rfl rfl).1

/-- C1: once `destroy()` has resolved — after any execution prefix `pre`
followed by the destroy — no later operation mutates the assigned-unit
set, fires an `onAdded`/`onRemoved` callback, performs a fetch, or
registers a listener.  The trailing operations `post` cover exactly the
claim's race cases: a poll-timer tick that was already scheduled and a
bridge event whose metadata lookup was in flight when `destroy()` was
invoked, as well as elapsed time and further lifecycle calls. -/
theorem destroy_freezes_state (sh : ShardingParams) (cid : String)
    (init : SyncState) (pre post : List SyncOp) :
    (runSync sh cid (runSync sh cid init (pre ++ [SyncOp.destroyOp]))
        post).currentUnits
      = (runSync sh cid init (pre ++ [SyncOp.destroyOp])).currentUnits
    ∧ (runSync sh cid (runSync sh cid init (pre ++ [SyncOp.destroyOp]))
        post).addedCallbacks
      = (runSync sh cid init (pre ++ [SyncOp.destroyOp])).addedCallbacks
    ∧ (runSync sh cid (runSync sh cid init (pre ++ [SyncOp.destroyOp]))
        post).removedCallbacks
      = (runSync sh cid init (pre ++ [SyncOp.destroyOp])).removedCallbacks
    ∧ (runSync sh cid (runSync sh cid init (pre ++ [SyncOp.destroyOp]))
        post).fetchCalls
      = (runSync sh cid init (pre ++ [SyncOp.destroyOp])).fetchCalls
    ∧ (runSync sh cid (runSync sh cid init (pre ++ [SyncOp.destroyOp]))
        post).listenerRegistrations
      = (runSync sh cid init (pre ++ [SyncOp.destroyOp])).listenerRegistrations := by
  have hd : (runSync sh cid init (pre ++ [SyncOp.destroyOp])).destroyed = true := by
    rw [runSync, List.foldl_append]
    rfl
  rw [runSync_destroyed sh cid _ hd post]
  exact ⟨rfl, rfl, rfl, rfl, rfl⟩

/-- C6: a failed full-state fetch on a poll tick is non-fatal: one
warning is logged, the tick is skipped — the local set and both callback
sequences are unchanged for that cycle — the synchronizer stays started
and not destroyed (the timer continues), and the next successful tick
reconciles to the fetched list as usual.  Every step of the model is a
total function, so no exception propagates to the caller of `start()`. -/
theorem poll_fetch_failure_skips_tick (sh : ShardingParams) (cid : String)
    (s : SyncState) (e : String) (h1 : s.started = true)
    (h2 : s.destroyed = false) :
    (stepSync sh cid s (SyncOp.tick (Except.error e))).currentUnits
      = s.currentUnits
    ∧ (stepSync sh cid s (SyncOp.tick (Except.error e))).addedCallbacks
      = s.addedCallbacks
    ∧ (stepSync sh cid s (SyncOp.tick (Except.error e))).removedCallbacks
      = s.removedCallbacks
    ∧ (stepSync sh cid s (SyncOp.tick (Except.error e))).fetchCalls
      = s.fetchCalls + 1
    ∧ (stepSync sh cid s (SyncOp.tick (Except.error e))).warnLogs
      = s.warnLogs + 1
    ∧ (stepSync sh cid s (SyncOp.tick (Except.error e))).started = true
    ∧ (stepSync sh cid s (SyncOp.tick (Except.error e))).destroyed = false
    ∧ ∀ units : List UnitMetadata,
        (stepSync sh cid (stepSync sh cid s (SyncOp.tick (Except.error e)))
            (SyncOp.tick (Except.ok units))).currentUnits
          = expandAll sh units := by
  simp [stepSync, h1, h2, pollApply]

/-- Witness for C6: a fetch failure on a freshly started synchronizer
leaves the (empty) local set unchanged. -/
theorem poll_fetch_failure_skips_tick_witness :
    (stepSync singleShard "0xaaaa" { SyncState.initial with started := true }
        (SyncOp.tick (Except.error "results not available"))).currentUnits
      = ({ SyncState.initial with started := true } : SyncState).currentUnits :=
  (poll_fetch_failure_skips_tick singleShard "0xaaaa"
    { SyncState.initial with started := true } "results not available"
    rfl rfl).1

/-- C8: with `start()` never invoked, any sequence of queued ticks,
bridge events, destroy calls and elapsed time leaves the synchronizer
inert: `getAssignedUnits()` returns the empty set, zero fetch calls are
made, zero listeners are registered, and zero callbacks fire. -/
theorem no_start_no_effects (sh : ShardingParams) (cid : String)
    (ops : List SyncOp) (h : SyncOp.startOp ∉ ops) :
    (runSync sh cid SyncState.initial ops).getAssignedUnits = []
    ∧ (runSync sh cid SyncState.initial ops).fetchCalls = 0
    ∧ (runSync sh cid SyncState.initial ops).listenerRegistrations = 0
    ∧ (runSync sh cid SyncState.initial ops).addedCallbacks = []
    ∧ (runSync sh cid SyncState.initial ops).removedCallbacks = [] := by
  have hobs := runSync_not_started sh cid SyncState.initial rfl ops h
  simp only [SyncState.observables, SyncState.initial, Prod.mk.injEq] at hobs
  exact ⟨hobs.1, hobs.2.1, hobs.2.2.1, hobs.2.2.2.1, hobs.2.2.2.2⟩

/-- Witness for C8: waiting twice the poll interval and even a stray
queued tick produce no effect when `start()` was never called. -/
theorem no_start_no_effects_witness :
    (runSync singleShard "0xaaaa" SyncState.initial
        [SyncOp.waitTime 20,
         SyncOp.tick (Except.ok [⟨"stream-1", 2⟩, ⟨"stream-2", 4⟩])]).getAssignedUnits
      = [] :=
  (no_start_no_effects singleShard "0xaaaa"
    [SyncOp.waitTime 20,
     SyncOp.tick (Except.ok [⟨"stream-1", 2⟩, ⟨"stream-2", 4⟩])]
    (by simp)).1

/-- C2: after any successful poll, the local set equals exactly the
sharding-filtered expansion of the fetched list (and hence, over any
nonempty sequence of successful polls, the final set is the expansion
of the last list); re-polling the same list produces zero further
callbacks; one poll's callbacks are exactly one `onAdded` per key of
`toAdd = expanded − current` and one `onRemoved` per key of
`toRemove = current − expanded`, `|toAdd| + |toRemove|` in total, and
each callback list is duplicate-free (exactly once per transition,
never more). -/
theorem poll_reconciliation (sh : ShardingParams) (current : List UnitKey)
    (units : List UnitMetadata) (hn : current.Nodup) :
    (pollApply sh current units).newUnits = expandAll sh units
    ∧ (∀ (polls : List (List UnitMetadata)) (hne : polls ≠ []),
        polls.foldl (fun st us => (pollApply sh st us).newUnits) current
          = expandAll sh (polls.getLast hne))
    ∧ (pollApply sh (pollApply sh current units).newUnits units).added = []
    ∧ (pollApply sh (pollApply sh current units).newUnits units).removed = []
    ∧ (pollApply sh current units).added
        = (expandAll sh units).filter (fun k => !current.contains k)
    ∧ (pollApply sh current units).removed
        = current.filter (fun k => !(expandAll sh units).contains k)
    ∧ (pollApply sh current units).added.length
        + (pollApply sh current units).removed.length
      = ((expandAll sh units).filter (fun k => !current.contains k)).length
        + (current.filter (fun k => !(expandAll sh units).contains k)).length
    ∧ (pollApply sh current units).added.Nodup
    ∧ (pollApply sh current units).removed.Nodup := by
  refine ⟨rfl, fun polls hne => pollFold_eq_expandAll_last sh polls hne current,
    filter_not_contains_self _, filter_not_contains_self _, rfl, rfl, rfl,
    (expandAll_nodup sh units).filter _, hn.filter _⟩

/-- Witness for C2 at concrete inputs: polling `stream-1` (2 partitions)
from the empty set yields exactly its expansion. -/
theorem poll_reconciliation_witness :
    (pollApply singleShard [] [⟨"stream-1", 2⟩]).newUnits
      = expandAll singleShard [⟨"stream-1", 2⟩] :=
  (poll_reconciliation singleShard [] [⟨"stream-1", 2⟩] List.nodup_nil).1

/-- C4: the concrete event scenario — from the empty set, an `added`
event for `stream-1` (2 partitions), an `added` event for `stream-3`
(1 partition), then a `removed` event for `stream-1` fire exactly 3
`onAdded` callbacks and exactly 2 `onRemoved` callbacks and leave the
set with exactly 1 key — together with the general transition laws: an
`added` event adds only keys not already present (its callbacks never
mention a present key) and a `removed` event removes only keys
currently present (its callbacks never mention an absent key). -/
theorem event_reconciliation (sh : ShardingParams) (current : List UnitKey)
    (m : UnitMetadata) :
    ((runSync singleShard "0xaaaaaaaaaaaaaaaaaaaaaaaaaaaaaaaaaaaaaaaa"
        SyncState.initial
        [SyncOp.startOp,
         SyncOp.bridgeEvent
           ⟨"stream-1", "0xaaaaaaaaaaaaaaaaaaaaaaaaaaaaaaaaaaaaaaaa", 10⟩
           (Except.ok ⟨"stream-1", 2⟩) ChangeType.added,
         SyncOp.bridgeEvent
           ⟨"stream-3", "0xaaaaaaaaaaaaaaaaaaaaaaaaaaaaaaaaaaaaaaaa", 15⟩
           (Except.ok ⟨"stream-3", 1⟩) ChangeType.added,
         SyncOp.bridgeEvent
           ⟨"stream-1", "0xaaaaaaaaaaaaaaaaaaaaaaaaaaaaaaaaaaaaaaaa", 13⟩
           (Except.ok ⟨"stream-1", 2⟩) ChangeType.removed]).addedCallbacks
      = [⟨"stream-1", 0⟩, ⟨"stream-1", 1⟩, ⟨"stream-3", 0⟩]
    ∧ (runSync singleShard "0xaaaaaaaaaaaaaaaaaaaaaaaaaaaaaaaaaaaaaaaa"
        SyncState.initial
        [SyncOp.startOp,
         SyncOp.bridgeEvent
           ⟨"stream-1", "0xaaaaaaaaaaaaaaaaaaaaaaaaaaaaaaaaaaaaaaaa", 10⟩
           (Except.ok ⟨"stream-1", 2⟩) ChangeType.added,
         SyncOp.bridgeEvent
           ⟨"stream-3", "0xaaaaaaaaaaaaaaaaaaaaaaaaaaaaaaaaaaaaaaaa", 15⟩
           (Except.ok ⟨"stream-3", 1⟩) ChangeType.added,
         SyncOp.bridgeEvent
           ⟨"stream-1", "0xaaaaaaaaaaaaaaaaaaaaaaaaaaaaaaaaaaaaaaaa", 13⟩
           (Except.ok ⟨"stream-1", 2⟩) ChangeType.removed]).removedCallbacks
      = [⟨"stream-1", 0⟩, ⟨"stream-1", 1⟩]
    ∧ (runSync singleShard "0xaaaaaaaaaaaaaaaaaaaaaaaaaaaaaaaaaaaaaaaa"
        SyncState.initial
        [SyncOp.startOp,
         SyncOp.bridgeEvent
           ⟨"stream-1", "0xaaaaaaaaaaaaaaaaaaaaaaaaaaaaaaaaaaaaaaaa", 10⟩
           (Except.ok ⟨"stream-1", 2⟩) ChangeType.added,
         SyncOp.bridgeEvent
           ⟨"stream-3", "0xaaaaaaaaaaaaaaaaaaaaaaaaaaaaaaaaaaaaaaaa", 15⟩
           (Except.ok ⟨"stream-3", 1⟩) ChangeType.added,
         SyncOp.bridgeEvent
           ⟨"stream-1", "0xaaaaaaaaaaaaaaaaaaaaaaaaaaaaaaaaaaaaaaaa", 13⟩
           (Except.ok ⟨"stream-1", 2⟩) ChangeType.removed]).currentUnits.length
      = 1)
    ∧ (∀ k ∈ (eventApply sh current m ChangeType.added).added, k ∉ current)
    ∧ (eventApply sh current m ChangeType.added).newUnits
        = current ++ (eventApply sh current m ChangeType.added).added
    ∧ (eventApply sh current m ChangeType.added).removed = []
    ∧ (∀ k ∈ current, k ∉ (eventApply sh current m ChangeType.added).added)
    ∧ (∀ k ∈ (eventApply sh current m ChangeType.removed).removed, k ∈ current)
    ∧ (eventApply sh current m ChangeType.removed).added = []
    ∧ (∀ k, k ∉ current →
        k ∉ (eventApply sh current m ChangeType.removed).removed) := by
  have hadd : ∀ k ∈ (eventApply sh current m ChangeType.added).added,
      k ∉ current := by
    intro k hk
    have hp := List.of_mem_filter hk
    simpa [List.contains] using hp
  have hrem : ∀ k ∈ (eventApply sh current m ChangeType.removed).removed,
      k ∈ current := by
    intro k hk
    have hp := List.of_mem_filter hk
    simpa [List.contains] using hp
  refine ⟨by decide, hadd, rfl, rfl, fun k hk hmem => hadd k hmem hk,
    hrem, rfl, fun k hk hmem => hk (hrem k hmem)⟩

/-- Witness for C4 at concrete inputs: the key added by an `added` event
for a fresh stream is not in the previous set. -/
theorem event_reconciliation_witness :
    (⟨"stream-3", 0⟩ : UnitKey) ∉ ([⟨"stream-1", 0⟩] : List UnitKey) :=
  (event_reconciliation singleShard [⟨"stream-1", 0⟩]
      ⟨"stream-3", 1⟩).2.1 ⟨"stream-3", 0⟩ (by decide)

end LogStore
